import Mathlib

/- Shallow embedding of the zscaler-manager repository (src/src/domain.py and
   src/src/cli/vpn.py).  External effects (the process table, systemd calls,
   sleeps, the sqlite event store) are passed in explicitly as observation
   functions or data; each Lean definition mirrors one Python function. -/

deriving instance DecidableEq for Except

namespace ZscalerManager

/-- Mirrors the `ZScalerVpnStatus` enum (domain.py lines 283-286). -/
inductive ZScalerVpnStatus
  | all_processes_running
  | some_processes_running
  | no_processes_running
deriving DecidableEq, Repr, Fintype

/-- Mirrors the `.value` string of each Python enum member. -/
def ZScalerVpnStatus.value : ZScalerVpnStatus → String
  | .all_processes_running => "all_processes_running"
  | .some_processes_running => "some_processes_running"
  | .no_processes_running => "no_processes_running"

/-- Mirrors the `Action` type alias (domain.py line 312). -/
inductive Action
  | nothing_to_reconcile
  | shutdown
  | startup
deriving DecidableEq, Repr, Fintype

/-- Mirrors the message of the `UnsupportedScenario` exception raised by
    `decide_action` (domain.py lines 331-333). -/
def unsupported_transition_message (current desired : ZScalerVpnStatus) : String :=
  "unable to determine the action to take:\ncurrent: " ++ current.value
    ++ "\ndesired: " ++ desired.value

/-- Mirrors `decide_action` (domain.py lines 315-333).  The Python
    `raise UnsupportedScenario(...)` is modelled as `Except.error`. -/
def decide_action (current desired : ZScalerVpnStatus) : Except String Action :=
  if current.value = desired.value then
    .ok .nothing_to_reconcile
  else if desired = .all_processes_running
      ∧ (current = .no_processes_running ∨ current = .some_processes_running) then
    .ok .startup
  else if desired = .no_processes_running
      ∧ (current = .all_processes_running ∨ current = .some_processes_running) then
    .ok .shutdown
  else
    .error (unsupported_transition_message current desired)

/-- C1: `decide_action` returns NoOp on the diagonal; Startup when desired is
    AllRunning and current is NoneRunning or SomeRunning; Shutdown when desired
    is NoneRunning and current is AllRunning or SomeRunning; and fails with the
    UnsupportedTransition error exactly when desired is SomeRunning and current
    differs from it. -/
theorem c1_decide_action_cases :
    (∀ s : ZScalerVpnStatus, decide_action s s = .ok .nothing_to_reconcile)
    ∧ decide_action .no_processes_running .all_processes_running = .ok .startup
    ∧ decide_action .some_processes_running .all_processes_running = .ok .startup
    ∧ decide_action .all_processes_running .no_processes_running = .ok .shutdown
    ∧ decide_action .some_processes_running .no_processes_running = .ok .shutdown
    ∧ (∀ current desired : ZScalerVpnStatus,
        decide_action current desired
            = .error (unsupported_transition_message current desired)
          ↔ (desired = .some_processes_running ∧ current ≠ desired)) := by
  decide

/-- C2 counterexample: `decide_action` does signal an error for the pair
    (current = AllRunning, desired = SomeRunning), refuting the claim that it
    signals an error for no pair. -/
theorem c2_counterexample_error_pair :
    decide_action .all_processes_running .some_processes_running
      = .error (unsupported_transition_message .all_processes_running
          .some_processes_running) := by
  decide

/-- C2 amended: `decide_action` returns an action for every (current, desired)
    pair except exactly the two pairs with desired = SomeRunning and
    current ≠ desired, where it signals an UnsupportedTransition error. -/
theorem c2_decide_total_amended :
    ∀ current desired : ZScalerVpnStatus,
      (decide_action current desired).isOk = true
        ↔ ¬(desired = .some_processes_running ∧ current ≠ desired) := by
  decide

/-- Outcome of one bounded-retry polling loop: the returned boolean, the number
    of one-second sleeps performed, and, one entry per loop pass, the list of
    binaries checked on that pass. -/
structure PollOutcome where
  result : Bool
  sleeps : Nat
  trace : List (List String)
deriving DecidableEq, Repr

/-- Mirrors the `while` loop of `_are_processes_running` (domain.py lines
    78-101): `remaining` is the Python `not_running` set, `fuel` is
    `max_attempts - attempts`, and `obs n b` is what `_is_process_running(b)`
    observes on loop pass `n`. -/
def pollRunningLoop (obs : Nat → String → Bool) :
    Nat → List String → Nat → PollOutcome
  | _, _, 0 => ⟨false, 0, []⟩
  | pass, remaining, fuel + 1 =>
    if remaining.isEmpty then ⟨false, 0, []⟩
    else
      let still := remaining.filter (fun b => !(obs pass b))
      if still.isEmpty then ⟨true, 0, [remaining]⟩
      else
        let rest := pollRunningLoop obs (pass + 1) still fuel
        ⟨rest.result, rest.sleeps + 1, remaining :: rest.trace⟩

/-- Mirrors `_are_processes_running` (domain.py lines 73-101):
    `max_attempts = 5`, `set(patterns)` modelled by `List.dedup`. -/
def _are_processes_running (obs : Nat → String → Bool)
    (patterns : List String) : PollOutcome :=
  pollRunningLoop obs 0 patterns.dedup 5

/-- Mirrors the `while` loop of `_are_processes_not_running` (domain.py lines
    109-132): `remaining` is the Python `running` set; a binary is dropped once
    it is observed not running. -/
def pollNotRunningLoop (obs : Nat → String → Bool) :
    Nat → List String → Nat → PollOutcome
  | _, _, 0 => ⟨false, 0, []⟩
  | pass, remaining, fuel + 1 =>
    if remaining.isEmpty then ⟨false, 0, []⟩
    else
      let still := remaining.filter (fun b => obs pass b)
      if still.isEmpty then ⟨true, 0, [remaining]⟩
      else
        let rest := pollNotRunningLoop obs (pass + 1) still fuel
        ⟨rest.result, rest.sleeps + 1, remaining :: rest.trace⟩

/-- Mirrors `_are_processes_not_running` (domain.py lines 104-132). -/
def _are_processes_not_running (obs : Nat → String → Bool)
    (patterns : List String) : PollOutcome :=
  pollNotRunningLoop obs 0 patterns.dedup 5

lemma pollRunningLoop_zero (obs : Nat → String → Bool) (pass : Nat)
    (remaining : List String) :
    pollRunningLoop obs pass remaining 0 = ⟨false, 0, []⟩ := rfl

lemma pollRunningLoop_nil (obs : Nat → String → Bool) (pass fuel : Nat)
    (remaining : List String) (hne : remaining.isEmpty = true) :
    pollRunningLoop obs pass remaining (fuel + 1) = ⟨false, 0, []⟩ := by
  simp [pollRunningLoop, hne]

lemma pollRunningLoop_done (obs : Nat → String → Bool) (pass fuel : Nat)
    (remaining : List String) (hne : remaining.isEmpty = false)
    (hst : (remaining.filter (fun b => !(obs pass b))).isEmpty = true) :
    pollRunningLoop obs pass remaining (fuel + 1) = ⟨true, 0, [remaining]⟩ := by
  simp [pollRunningLoop, hne, hst]

lemma pollRunningLoop_cons (obs : Nat → String → Bool) (pass fuel : Nat)
    (remaining : List String) (hne : remaining.isEmpty = false)
    (hst : (remaining.filter (fun b => !(obs pass b))).isEmpty = false) :
    pollRunningLoop obs pass remaining (fuel + 1)
      = ⟨(pollRunningLoop obs (pass + 1)
            (remaining.filter (fun b => !(obs pass b))) fuel).result,
         (pollRunningLoop obs (pass + 1)
            (remaining.filter (fun b => !(obs pass b))) fuel).sleeps + 1,
         remaining :: (pollRunningLoop obs (pass + 1)
            (remaining.filter (fun b => !(obs pass b))) fuel).trace⟩ := by
  simp [pollRunningLoop, hne, hst]

lemma pollRunningLoop_never (obs : Nat → String → Bool) (b : String)
    (hb : ∀ n, obs n b = false) :
    ∀ fuel pass remaining, b ∈ remaining →
      (pollRunningLoop obs pass remaining fuel).result = false
      ∧ (pollRunningLoop obs pass remaining fuel).sleeps = fuel
      ∧ (pollRunningLoop obs pass remaining fuel).trace.length = fuel := by
  intro fuel
  induction fuel with
  | zero =>
    intro pass remaining hmem
    simp [pollRunningLoop_zero]
  | succ fuel ih =>
    intro pass remaining hmem
    have hne : remaining.isEmpty = false := by
      cases remaining with
      | nil => cases hmem
      | cons x xs => rfl
    have hbstill : b ∈ remaining.filter (fun x => !(obs pass x)) := by
      simp [List.mem_filter, hmem, hb pass]
    have hstillne : (remaining.filter (fun x => !(obs pass x))).isEmpty = false := by
      cases hfe : remaining.filter (fun x => !(obs pass x)) with
      | nil => rw [hfe] at hbstill; cases hbstill
      | cons x xs => rfl
    have hrec := ih (pass + 1) (remaining.filter (fun x => !(obs pass x))) hbstill
    rw [pollRunningLoop_cons obs pass fuel remaining hne hstillne]
    simp [hrec.1, hrec.2.1, hrec.2.2]

lemma pollRunningLoop_trace_le (obs : Nat → String → Bool) :
    ∀ fuel pass remaining,
      (pollRunningLoop obs pass remaining fuel).trace.length ≤ fuel := by
  intro fuel
  induction fuel with
  | zero => intro pass remaining; simp [pollRunningLoop_zero]
  | succ fuel ih =>
    intro pass remaining
    rcases Bool.eq_false_or_eq_true remaining.isEmpty with hne | hne
    · rw [pollRunningLoop_nil obs pass fuel remaining hne]
      simp
    · rcases Bool.eq_false_or_eq_true
          (remaining.filter (fun b => !(obs pass b))).isEmpty with hst | hst
      · rw [pollRunningLoop_done obs pass fuel remaining hne hst]
        simp
      · have hrec := ih (pass + 1) (remaining.filter (fun b => !(obs pass b)))
        rw [pollRunningLoop_cons obs pass fuel remaining hne hst]
        simp only [List.length_cons]
        omega

lemma pollRunningLoop_trace_head (obs : Nat → String → Bool)
    (fuel pass : Nat) (remaining : List String) :
    (pollRunningLoop obs pass remaining fuel).trace = []
    ∨ ∃ t, (pollRunningLoop obs pass remaining fuel).trace = remaining :: t := by
  cases fuel with
  | zero => left; simp [pollRunningLoop_zero]
  | succ fuel =>
    rcases Bool.eq_false_or_eq_true remaining.isEmpty with hne | hne
    · left
      rw [pollRunningLoop_nil obs pass fuel remaining hne]
    · rcases Bool.eq_false_or_eq_true
          (remaining.filter (fun b => !(obs pass b))).isEmpty with hst | hst
      · right
        exact ⟨[], by rw [pollRunningLoop_done obs pass fuel remaining hne hst]⟩
      · right
        refine ⟨(pollRunningLoop obs (pass + 1)
            (remaining.filter (fun b => !(obs pass b))) fuel).trace, ?_⟩
        rw [pollRunningLoop_cons obs pass fuel remaining hne hst]

lemma pollRunningLoop_shrink (obs : Nat → String → Bool) :
    ∀ fuel pass remaining i,
      i + 1 < (pollRunningLoop obs pass remaining fuel).trace.length →
      (pollRunningLoop obs pass remaining fuel).trace[i + 1]?
        = ((pollRunningLoop obs pass remaining fuel).trace[i]?).map
            (List.filter (fun b => !(obs (pass + i) b))) := by
  intro fuel
  induction fuel with
  | zero =>
    intro pass remaining i hlt
    simp [pollRunningLoop_zero] at hlt
  | succ fuel ih =>
    intro pass remaining i hlt
    rcases Bool.eq_false_or_eq_true remaining.isEmpty with hne | hne
    · rw [pollRunningLoop_nil obs pass fuel remaining hne] at hlt
      simp at hlt
    · rcases Bool.eq_false_or_eq_true
          (remaining.filter (fun b => !(obs pass b))).isEmpty with hst | hst
      · rw [pollRunningLoop_done obs pass fuel remaining hne hst] at hlt
        simp at hlt
      · rw [pollRunningLoop_cons obs pass fuel remaining hne hst] at hlt ⊢
        simp only [List.length_cons] at hlt
        cases i with
        | zero =>
          have hlen : 1 ≤ (pollRunningLoop obs (pass + 1)
              (remaining.filter (fun b => !(obs pass b))) fuel).trace.length := by
            omega
          rcases pollRunningLoop_trace_head obs fuel (pass + 1)
              (remaining.filter (fun b => !(obs pass b))) with hnil | ⟨t, ht⟩
          · rw [hnil] at hlen; simp at hlen
          · simp [ht]
        | succ j =>
          have harg : pass + 1 + j = pass + (j + 1) := by omega
          have hrec := ih (pass + 1)
            (remaining.filter (fun b => !(obs pass b))) j (by omega)
          rw [harg] at hrec
          simpa using hrec

/-- C4: for a non-empty identity list, `_are_processes_running` returns true
    with no sleep and a single pass when every identity is observed running on
    the first attempt; returns false after exactly 5 passes and 5 (hence at
    least 4) one-second sleeps when some identity is never observed running;
    the loop is bounded by the 5-attempt budget, and every later pass re-checks
    exactly the identities the previous pass left unsatisfied. -/
theorem c4_wait_until_all_running (obs : Nat → String → Bool)
    (patterns : List String) (hne : patterns ≠ []) :
    ((∀ b ∈ patterns, obs 0 b = true) →
      _are_processes_running obs patterns = ⟨true, 0, [patterns.dedup]⟩)
    ∧ ((∃ b ∈ patterns, ∀ n, obs n b = false) →
      (_are_processes_running obs patterns).result = false
      ∧ (_are_processes_running obs patterns).sleeps = 5
      ∧ (_are_processes_running obs patterns).trace.length = 5)
    ∧ (_are_processes_running obs patterns).trace.length ≤ 5
    ∧ (∀ i, i + 1 < (_are_processes_running obs patterns).trace.length →
      (_are_processes_running obs patterns).trace[i + 1]?
        = ((_are_processes_running obs patterns).trace[i]?).map
            (List.filter (fun b => !(obs i b)))) := by
  refine ⟨?_, ?_, ?_, ?_⟩
  · intro hall
    have hdne : patterns.dedup.isEmpty = false := by
      cases hd : patterns.dedup with
      | nil => exact absurd ((List.dedup_eq_nil _).mp hd) hne
      | cons x xs => rfl
    have hfil : patterns.dedup.filter (fun b => !(obs 0 b)) = [] := by
      rw [List.filter_eq_nil_iff]
      intro a ha
      simp [hall a (List.mem_dedup.mp ha)]
    show pollRunningLoop obs 0 patterns.dedup 5 = ⟨true, 0, [patterns.dedup]⟩
    rw [show (5 : Nat) = 4 + 1 from rfl]
    exact pollRunningLoop_done obs 0 4 patterns.dedup hdne (by rw [hfil]; rfl)
  · rintro ⟨b, hbmem, hb⟩
    exact pollRunningLoop_never obs b hb 5 0 patterns.dedup
      (List.mem_dedup.mpr hbmem)
  · exact pollRunningLoop_trace_le obs 5 0 patterns.dedup
  · intro i hlt
    have hstep := pollRunningLoop_shrink obs 5 0 patterns.dedup i hlt
    simpa using hstep

/-- C4 witness: the theorem applied to an observer that always sees the one
    tracked identity running, so the loop succeeds on its first pass. -/
theorem c4_wait_until_all_running_witness :
    _are_processes_running (fun _ _ => true) ["a"] = ⟨true, 0, [["a"]]⟩ := by
  simpa using
    (c4_wait_until_all_running (fun _ _ => true) ["a"] (by decide)).1 (by decide)

/-- C9: called with an empty set of identities, both wait helpers return false
    immediately, with no pass over the process table and no sleep, although the
    target condition holds vacuously for the empty set. -/
theorem c9_empty_set_returns_false (obs : Nat → String → Bool) :
    _are_processes_running obs [] = ⟨false, 0, []⟩
    ∧ _are_processes_not_running obs [] = ⟨false, 0, []⟩ :=
  ⟨rfl, rfl⟩

/-- The three tracked binaries (domain.py lines 290-294). -/
def ZSCALER_BINARIES : List String :=
  ["/opt/zscaler/bin/ZSTray", "/opt/zscaler/bin/zsaservice",
   "/opt/zscaler/bin/zstunnel"]

/-- Mirrors `is_zscaler_running` (domain.py lines 289-306): `obs` stands for
    `_is_process_running`, and `are_running = set(map(...))` is the finite set
    of observed booleans.  The debugger-breakpoint environment variable the
    Python function sets has no observable effect and is not modelled. -/
def is_zscaler_running (obs : String → Bool) : Except String ZScalerVpnStatus :=
  let are_running : Finset Bool := (ZSCALER_BINARIES.map obs).toFinset
  if are_running = {true} then .ok .all_processes_running
  else if are_running = {false} then .ok .no_processes_running
  else if are_running = ({true, false} : Finset Bool) then
    .ok .some_processes_running
  else .error "unsupported scenario"

lemma is_zscaler_running_eq (obs : String → Bool) (x y z : Bool)
    (h1 : obs "/opt/zscaler/bin/ZSTray" = x)
    (h2 : obs "/opt/zscaler/bin/zsaservice" = y)
    (h3 : obs "/opt/zscaler/bin/zstunnel" = z) :
    is_zscaler_running obs
      = (if (([x, y, z] : List Bool).toFinset : Finset Bool) = {true} then
          .ok .all_processes_running
        else if (([x, y, z] : List Bool).toFinset : Finset Bool) = {false} then
          .ok .no_processes_running
        else if (([x, y, z] : List Bool).toFinset : Finset Bool) = {true, false} then
          .ok .some_processes_running
        else .error "unsupported scenario") := by
  subst h1 h2 h3
  rfl

/-- C3: with `S` the sublist of the three tracked identities the observer
    reports as running, the classifier returns AllRunning iff `S` is the whole
    list, NoneRunning iff `S` is empty, and SomeRunning in exactly the
    remaining cases. -/
theorem c3_classify_subsets (obs : String → Bool) :
    (is_zscaler_running obs = .ok .all_processes_running
      ↔ ZSCALER_BINARIES.filter obs = ZSCALER_BINARIES)
    ∧ (is_zscaler_running obs = .ok .no_processes_running
      ↔ ZSCALER_BINARIES.filter obs = [])
    ∧ (is_zscaler_running obs = .ok .some_processes_running
      ↔ (ZSCALER_BINARIES.filter obs ≠ ZSCALER_BINARIES
          ∧ ZSCALER_BINARIES.filter obs ≠ [])) := by
  rcases Bool.eq_false_or_eq_true (obs "/opt/zscaler/bin/ZSTray") with h1 | h1 <;>
    rcases Bool.eq_false_or_eq_true (obs "/opt/zscaler/bin/zsaservice")
        with h2 | h2 <;>
      rcases Bool.eq_false_or_eq_true (obs "/opt/zscaler/bin/zstunnel")
          with h3 | h3 <;>
        rw [is_zscaler_running_eq obs _ _ _ h1 h2 h3] <;>
          simp [ZSCALER_BINARIES, List.filter_cons, h1, h2, h3] <;> decide

/-- C10: the classifier never reaches its fallthrough error branch: the three
    tracked binaries give a non-empty set of boolean observations, so every
    call returns one of the three statuses. -/
theorem c10_classifier_never_raises (obs : String → Bool) :
    ∃ s : ZScalerVpnStatus, is_zscaler_running obs = .ok s := by
  rcases Bool.eq_false_or_eq_true (obs "/opt/zscaler/bin/ZSTray") with h1 | h1 <;>
    rcases Bool.eq_false_or_eq_true (obs "/opt/zscaler/bin/zsaservice")
        with h2 | h2 <;>
      rcases Bool.eq_false_or_eq_true (obs "/opt/zscaler/bin/zstunnel")
          with h3 | h3 <;>
        rw [is_zscaler_running_eq obs _ _ _ h1 h2 h3] <;> decide

/-- One externally visible operation of the startup sequence: the systemctl
    mutations (root or user scope) and the verification queries made between
    them. -/
inductive SupOp
  | enableRoot (service : String)
  | startRoot (service : String)
  | stopRoot (service : String)
  | disableRoot (service : String)
  | startUser (service : String)
  | stopUser (service : String)
  | verifyEnabled (service : String)
  | verifyDisabled (service : String)
  | verifyRunning (patterns : List String)
  | verifyNotRunning (patterns : List String)
deriving DecidableEq, Repr

/-- Answers of the supervisor/observer double to the verification queries:
    `unitEnabled`/`unitDisabled` stand for `_is_systemd_unit_enabled` and
    `_is_systemd_unit_disabled`, `processesRunning`/`processesNotRunning` for
    `_are_processes_running` and `_are_processes_not_running`. -/
structure Supervisor where
  unitEnabled : String → Bool
  unitDisabled : String → Bool
  processesRunning : List String → Bool
  processesNotRunning : List String → Bool

/-- Unit names fixed in `start_zscaler` (domain.py lines 243-244). -/
def GUI_SERVICE : String := "ZSTray.service"

def DAEMON_SERVICE : String := "zsaservice.service"

/-- Binaries checked by `_did_daemon_start_correctly` (domain.py 183-189). -/
def DAEMON_BINARIES : List String :=
  ["/opt/zscaler/bin/zsaservice", "/opt/zscaler/bin/zstunnel"]

/-- Binary checked by `_did_gui_start_correctly` (domain.py 171-172). -/
def GUI_BINARIES : List String := ["/opt/zscaler/bin/ZSTray"]

/-- Mirrors `start_zscaler` (domain.py lines 242-261), recording the executed
    operations in order; the Python `exit(msg)` abort is modelled as
    `some msg`. -/
def start_zscaler (sup : Supervisor) : List SupOp × Option String :=
  let t1 : List SupOp :=
    [.enableRoot DAEMON_SERVICE, .verifyEnabled DAEMON_SERVICE]
  if !(sup.unitEnabled DAEMON_SERVICE) then
    (t1, some ("failed to enable " ++ DAEMON_SERVICE))
  else
    let t2 := t1 ++ [.startRoot DAEMON_SERVICE, .verifyRunning DAEMON_BINARIES]
    if !(sup.processesRunning DAEMON_BINARIES) then
      (t2, some ("failed to start " ++ DAEMON_SERVICE))
    else
      let t3 := t2 ++ [.startUser GUI_SERVICE, .verifyRunning GUI_BINARIES]
      if !(sup.processesRunning GUI_BINARIES) then
        (t3, some ("failed to start " ++ GUI_SERVICE))
      else
        (t3, none)

/-- Mirrors the `up` subcommand branch of `main` (cli/vpn.py lines 51-56):
    the startup sequence runs only when the current status is not
    AllRunning. -/
def vpn_up (current : ZScalerVpnStatus) (sup : Supervisor) :
    List SupOp × Option String :=
  if current = .all_processes_running then ([], none) else start_zscaler sup

/-- Stop or disable operations, which the startup sequence must never issue. -/
def SupOp.stopsOrDisables : SupOp → Bool
  | .stopRoot _ => true
  | .stopUser _ => true
  | .disableRoot _ => true
  | _ => false

/-- Operation list of a fully verified startup run. -/
def FULL_STARTUP_TRACE : List SupOp :=
  [.enableRoot DAEMON_SERVICE, .verifyEnabled DAEMON_SERVICE,
   .startRoot DAEMON_SERVICE, .verifyRunning DAEMON_BINARIES,
   .startUser GUI_SERVICE, .verifyRunning GUI_BINARIES]

/-- C5: with desired = AllRunning and current = NoneRunning against a double
    whose verifications all succeed, the startup sequence executes exactly
    enable, verify-enabled, start daemon, verify daemon+tunnel, start GUI,
    verify tray, in that order, issues no stop or disable call, and on the
    first failing verification it aborts with a reported error, running no
    later operation (the three failure clauses quantify over a second,
    arbitrary double `s2`). -/
theorem c5_startup_sequence (sup s2 : Supervisor)
    (h1 : sup.unitEnabled DAEMON_SERVICE = true)
    (h2 : sup.processesRunning DAEMON_BINARIES = true)
    (h3 : sup.processesRunning GUI_BINARIES = true) :
    vpn_up .no_processes_running sup = (FULL_STARTUP_TRACE, none)
    ∧ (∀ op ∈ (vpn_up .no_processes_running sup).1, op.stopsOrDisables = false)
    ∧ (s2.unitEnabled DAEMON_SERVICE = false →
        start_zscaler s2
          = ([.enableRoot DAEMON_SERVICE, .verifyEnabled DAEMON_SERVICE],
             some ("failed to enable " ++ DAEMON_SERVICE)))
    ∧ (s2.unitEnabled DAEMON_SERVICE = true →
        s2.processesRunning DAEMON_BINARIES = false →
        start_zscaler s2
          = ([.enableRoot DAEMON_SERVICE, .verifyEnabled DAEMON_SERVICE,
              .startRoot DAEMON_SERVICE, .verifyRunning DAEMON_BINARIES],
             some ("failed to start " ++ DAEMON_SERVICE)))
    ∧ (s2.unitEnabled DAEMON_SERVICE = true →
        s2.processesRunning DAEMON_BINARIES = true →
        s2.processesRunning GUI_BINARIES = false →
        start_zscaler s2
          = (FULL_STARTUP_TRACE, some ("failed to start " ++ GUI_SERVICE))) := by
  refine ⟨?_, ?_, ?_, ?_, ?_⟩
  · simp [vpn_up, start_zscaler, h1, h2, h3, FULL_STARTUP_TRACE]
  · intro op hop
    simp only [vpn_up, start_zscaler, h1, h2, h3] at hop
    simp at hop
    rcases hop with h | h | h | h | h | h <;> subst h <;> rfl
  · intro hf
    simp [start_zscaler, hf]
  · intro ht hf
    simp [start_zscaler, ht, hf]
  · intro ha hb hf
    simp [start_zscaler, ha, hb, hf, FULL_STARTUP_TRACE]

/-- C5 witness: the theorem applied to the always-succeeding double (and an
    always-failing double for the abort clauses). -/
theorem c5_startup_sequence_witness :
    vpn_up .no_processes_running ⟨fun _ => true, fun _ => true,
        fun _ => true, fun _ => true⟩ = (FULL_STARTUP_TRACE, none) :=
  (c5_startup_sequence ⟨fun _ => true, fun _ => true, fun _ => true,
      fun _ => true⟩
    ⟨fun _ => false, fun _ => false, fun _ => false, fun _ => false⟩
    rfl rfl rfl).1

/-- Mirrors Python `str.splitlines` for the line boundaries that occur in
    systemctl output: a line ends at every LF, CR or CRLF, and a trailing
    segment is emitted only when non-empty. -/
def pySplitlinesGo : List Char → List Char → List String
  | [], acc => if acc.isEmpty then [] else [String.mk acc.reverse]
  | '\r' :: '\n' :: rest, acc => String.mk acc.reverse :: pySplitlinesGo rest []
  | '\r' :: rest, acc => String.mk acc.reverse :: pySplitlinesGo rest []
  | '\n' :: rest, acc => String.mk acc.reverse :: pySplitlinesGo rest []
  | c :: rest, acc => pySplitlinesGo rest (c :: acc)

def pySplitlines (s : String) : List String := pySplitlinesGo s.data []

/-- Whether `needle` occurs as a contiguous run inside the character list. -/
def hasSubstrChars (needle : List Char) : List Char → Bool
  | [] => needle.isEmpty
  | c :: rest => needle.isPrefixOf (c :: rest) || hasSubstrChars needle rest

/-- Mirrors the Python `in` substring test on strings. -/
def hasSubstr (haystack needle : String) : Bool :=
  hasSubstrChars needle.data haystack.data

/-- Mirrors `_is_systemd_unit_enabled` (domain.py lines 135-150) applied to
    the captured stdout of `systemctl status`: indexing a missing second line
    (Python IndexError) and a second line without the `Loaded: ` marker
    (Python ValueError) are both modelled as errors. -/
def _is_systemd_unit_enabled (stdout : String) : Except String Bool :=
  match (pySplitlines stdout)[1]? with
  | none => .error "IndexError: list index out of range"
  | some line =>
    let second_line := line.trim
    if second_line.startsWith "Loaded: " then
      .ok (hasSubstr second_line "; enabled; preset: disabled)")
    else
      .error "expected the second line to start with Loaded: "

/-- Mirrors `_is_systemd_unit_disabled` (domain.py lines 153-168). -/
def _is_systemd_unit_disabled (stdout : String) : Except String Bool :=
  match (pySplitlines stdout)[1]? with
  | none => .error "IndexError: list index out of range"
  | some line =>
    let second_line := line.trim
    if second_line.startsWith "Loaded: " then
      .ok (hasSubstr second_line "; disabled; preset: disabled)")
    else
      .error "expected the second line to start with Loaded: "

/-- The expected marker line shape is absent: the trimmed second line of the
    status text is missing or does not start with `Loaded: `. -/
def unitMarkerLineBad (stdout : String) : Bool :=
  match (pySplitlines stdout)[1]? with
  | none => true
  | some line => !(line.trim.startsWith "Loaded: ")

/-- The trimmed second line of the status text (the empty string when absent,
    in which case `unitMarkerLineBad` holds anyway). -/
def secondLineTrim (stdout : String) : String :=
  (((pySplitlines stdout)[1]?).getD "").trim

/-- C6: for every unit status text, `_is_systemd_unit_enabled` and
    `_is_systemd_unit_disabled` fail exactly when the trimmed second line is
    missing or does not start with `Loaded: `; otherwise each returns whether
    its enabled/disabled substring together with the fixed preset marker occurs
    in that line. -/
theorem c6_unit_status_parse (stdout : String) :
    ((_is_systemd_unit_enabled stdout).toOption
      = if unitMarkerLineBad stdout then none
        else some (hasSubstr (secondLineTrim stdout)
            "; enabled; preset: disabled)"))
    ∧ ((_is_systemd_unit_disabled stdout).toOption
      = if unitMarkerLineBad stdout then none
        else some (hasSubstr (secondLineTrim stdout)
            "; disabled; preset: disabled)"))
    ∧ ((∃ e, _is_systemd_unit_enabled stdout = .error e)
        ↔ unitMarkerLineBad stdout = true)
    ∧ ((∃ e, _is_systemd_unit_disabled stdout = .error e)
        ↔ unitMarkerLineBad stdout = true) := by
  cases hline : (pySplitlines stdout)[1]? with
  | none =>
    have hbad : unitMarkerLineBad stdout = true := by
      simp [unitMarkerLineBad, hline]
    simp [_is_systemd_unit_enabled, _is_systemd_unit_disabled, hline, hbad,
      Except.toOption]
  | some line =>
    cases hsw : line.trim.startsWith "Loaded: " with
    | false =>
      have hbad : unitMarkerLineBad stdout = true := by
        simp [unitMarkerLineBad, hline, hsw]
      simp [_is_systemd_unit_enabled, _is_systemd_unit_disabled, hline, hsw,
        hbad, Except.toOption]
    | true =>
      have hbad : unitMarkerLineBad stdout = false := by
        simp [unitMarkerLineBad, hline, hsw]
      have hsl : secondLineTrim stdout = line.trim := by
        simp [secondLineTrim, hline]
      simp [_is_systemd_unit_enabled, _is_systemd_unit_disabled, hline, hsw,
        hbad, hsl, Except.toOption]

/-- Mirrors the `InternetSecurityStatus` enum (domain.py lines 336-339). -/
inductive InternetSecurityStatus
  | on
  | off
  | unknown
deriving DecidableEq, Repr

/-- Abbreviated weekday names accepted by the `%a` directive. -/
def PY_WEEKDAY_ABBRS : List String :=
  ["Mon", "Tue", "Wed", "Thu", "Fri", "Sat", "Sun"]

/-- Abbreviated month names accepted by the `%b` directive, in order. -/
def PY_MONTH_ABBRS : List String :=
  ["Jan", "Feb", "Mar", "Apr", "May", "Jun",
   "Jul", "Aug", "Sep", "Oct", "Nov", "Dec"]

/-- The fields of a parsed `datetime.datetime`. -/
structure PyDateTime where
  year : Nat
  month : Nat
  day : Nat
  hour : Nat
  minute : Nat
  second : Nat
deriving DecidableEq, Repr

/-- Split a character list at every occurrence of the separator. -/
def splitOnChar (sep : Char) : List Char → List Char → List (List Char)
  | [], acc => [acc.reverse]
  | c :: rest, acc =>
    if c == sep then acc.reverse :: splitOnChar sep rest []
    else splitOnChar sep rest (c :: acc)

/-- Lower-cases an ASCII letter: the folding both SQLite LIKE and the
    IGNORECASE name/AM-PM matching of Python strptime apply. -/
def asciiLower (c : Char) : Char :=
  if 'A' ≤ c ∧ c ≤ 'Z' then Char.ofNat (c.toNat + 32) else c

def lowerChars (cs : List Char) : List Char := cs.map asciiLower

/-- An all-digit token of the given width range read as a number, as the
    digit-counting regexes of the Python strptime directives admit. -/
def charsToNatWidth? (minW maxW : Nat) (cs : List Char) : Option Nat :=
  if minW ≤ cs.length ∧ cs.length ≤ maxW ∧ cs.all (fun c => c.isDigit) then
    some (cs.foldl (fun a c => a * 10 + (c.toNat - 48)) 0)
  else none

/-- Gregorian leap-year rule, as the datetime constructor validates days. -/
def isLeapYear (y : Nat) : Bool :=
  (y % 4 == 0 && y % 100 != 0) || (y % 400 == 0)

/-- Days in a month, as the datetime constructor validates the parsed day. -/
def daysInMonth (y m : Nat) : Nat :=
  if m = 2 then (if isLeapYear y then 29 else 28)
  else if m = 4 ∨ m = 6 ∨ m = 9 ∨ m = 11 then 30
  else 31

/-- Mirrors `datetime.strptime(time, "%a, %b %d %Y %H:%M:%S %p")` (domain.py
    line 350) on its fixed format: a weekday name with its trailing comma,
    month name, 1-2 digit day, 4-digit year, "H:M:S", and an AM/PM tag that
    `%H` makes irrelevant to the parsed value.  Names and the AM/PM tag match
    case-insensitively, runs of blanks separate the tokens, and the day must
    exist in the parsed month and year per the datetime constructor; any
    mismatch (Python ValueError) is `none`. -/
def strptimeEventFormat (s : String) : Option PyDateTime :=
  match (splitOnChar ' ' s.data []).filter (fun t => !t.isEmpty) with
  | [wdComma, mon, day, year, clock, ampm] =>
    if PY_WEEKDAY_ABBRS.any
        (fun w => lowerChars wdComma == lowerChars (w.data ++ [','])) then
      match PY_MONTH_ABBRS.findIdx?
          (fun m => lowerChars m.data == lowerChars mon) with
      | none => none
      | some mi =>
        match splitOnChar ':' clock [] with
        | [hh, mm, ss] =>
          match charsToNatWidth? 1 2 hh, charsToNatWidth? 1 2 mm,
              charsToNatWidth? 1 2 ss, charsToNatWidth? 1 2 day,
              charsToNatWidth? 4 4 year with
          | some h, some minu, some sec, some d, some y =>
            if h ≤ 23 ∧ minu ≤ 59 ∧ sec ≤ 59 ∧ 1 ≤ d
                ∧ d ≤ daysInMonth y (mi + 1) ∧ 1 ≤ y
                ∧ (lowerChars ampm = "am".data
                    ∨ lowerChars ampm = "pm".data) then
              some ⟨y, mi + 1, d, h, minu, sec⟩
            else none
          | _, _, _, _, _ => none
        | _ => none
    else none
  | _ => none

def pad2 (n : Nat) : String :=
  if n < 10 then "0" ++ toString n else toString n

def pad4 (n : Nat) : String :=
  if n < 10 then "000" ++ toString n
  else if n < 100 then "00" ++ toString n
  else if n < 1000 then "0" ++ toString n
  else toString n

/-- Mirrors `datetime.isoformat()` for whole-second datetimes (domain.py line
    351 stores it as the sort key `t`). -/
def PyDateTime.isoformat (t : PyDateTime) : String :=
  pad4 t.year ++ "-" ++ pad2 t.month ++ "-" ++ pad2 t.day ++ "T"
    ++ pad2 t.hour ++ ":" ++ pad2 t.minute ++ ":" ++ pad2 t.second

/-- A Python `str.startswith` test via the character lists: the literal
    case-sensitive reading of the prefix condition. -/
def strStartsWith (s pre : String) : Bool := pre.data.isPrefixOf s.data

/-- Mirrors the SQL filter `NotificationName LIKE` with the fixed
    Internet-Security-space-percent pattern (domain.py lines 358-371):
    SQLite LIKE is case-insensitive for ASCII by default, so the query selects
    the rows whose name has the prefix up to ASCII case. -/
def sqlLikePrefix (pre s : String) : Bool :=
  (lowerChars pre.data).isPrefixOf (lowerChars s.data)

/-- One row of the `ZAppNotifications` table, as selected by the query in
    `is_internet_security_on` (domain.py lines 362-372). -/
structure ZAppNotification where
  Time : String
  NotificationName : String
deriving DecidableEq, Repr

/-- Mirrors `map(_parse, events)` (domain.py lines 348-352, 381): each event
    paired with its parsed-and-isoformatted timestamp; any unparseable time
    (Python ValueError) fails the whole map. -/
def parseEvents :
    List ZAppNotification → Option (List (String × ZAppNotification))
  | [] => some []
  | e :: rest =>
    match strptimeEventFormat e.Time, parseEvents rest with
    | some t, some tail => some ((t.isoformat, e) :: tail)
    | _, _ => none

/-- Code-point lexicographic strict order, as Python compares the isoformat
    sort keys. -/
def charListLt : List Char → List Char → Bool
  | [], [] => false
  | [], _ :: _ => true
  | _ :: _, [] => false
  | a :: as, b :: bs =>
    if a.toNat < b.toNat then true
    else if b.toNat < a.toNat then false
    else charListLt as bs

def strLtB (a b : String) : Bool := charListLt a.data b.data

/-- Insert into an ascending-by-key list, after any equal keys, as Python's
    stable ascending sort places a later element. -/
def insertEvent (x : String × ZAppNotification) :
    List (String × ZAppNotification) → List (String × ZAppNotification)
  | [] => [x]
  | y :: ys => if strLtB x.1 y.1 then x :: y :: ys else y :: insertEvent x ys

/-- Mirrors `sorted(..., key=lambda x: x["t"])` (domain.py line 381):
    stable ascending sort by the isoformat key. -/
def sortEventsByTime (l : List (String × ZAppNotification)) :
    List (String × ZAppNotification) :=
  l.foldl (fun acc x => insertEvent x acc) []

/-- Mirrors `is_internet_security_on` (domain.py lines 342-399).  The optional
    event store stands for the sqlite DB at the fixed path: `none` when the DB
    file is absent, `some rows` for the table contents; the SQL
    `LIKE` filter with the pattern Internet-Security-space-percent selects
    prefix.  Python `raise UnsupportedScenario` is modelled as `Except.error`. -/
def is_internet_security_on (db : Option (List ZAppNotification)) :
    Except String InternetSecurityStatus :=
  match db with
  | none => .ok .unknown
  | some rows =>
    let events := rows.filter
      (fun r => sqlLikePrefix "Internet Security " r.NotificationName)
    if events.isEmpty then .ok .unknown
    else
      match parseEvents events with
      | none => .error "ValueError: time data does not match format"
      | some parsed =>
        match (sortEventsByTime parsed).getLast? with
        | none => .error "no parsed events"
        | some last =>
          match last.2.NotificationName with
          | "Internet Security Up" => .ok .on
          | "Internet Security Disabled" => .ok .on
          | "Internet Security Enabled" => .ok .on
          | "Internet Security On" => .ok .on
          | "Internet Security Off" => .ok .off
          | other => .error ("unsupported notification name: " ++ other)

/-- C7: with exactly the 10:00 "Internet Security Off" and 11:00 "Internet
    Security On" rows in the store, the current status is On, in either input
    row order: the latest event by parsed timestamp decides. -/
theorem c7_latest_event_wins :
    is_internet_security_on (some
        [⟨"Mon, Jan 01 2024 10:00:00 AM", "Internet Security Off"⟩,
         ⟨"Mon, Jan 01 2024 11:00:00 AM", "Internet Security On"⟩])
      = .ok .on
    ∧ is_internet_security_on (some
        [⟨"Mon, Jan 01 2024 11:00:00 AM", "Internet Security On"⟩,
         ⟨"Mon, Jan 01 2024 10:00:00 AM", "Internet Security Off"⟩])
      = .ok .on := by
  constructor <;> rfl

/-- C8 counterexample: a store whose only event name carries the prefix in
    lower case holds no event starting with "Internet Security " as the claim
    reads it, yet the query's case-insensitive LIKE selects the row and the
    call fails with UnsupportedScenario instead of returning Unknown. -/
theorem c8_counterexample_lowercase_event :
    (∀ r ∈ ([⟨"Mon, Jan 01 2024 10:00:00 AM", "internet security On"⟩]
        : List ZAppNotification),
      strStartsWith r.NotificationName "Internet Security " = false)
    ∧ is_internet_security_on (some
        [⟨"Mon, Jan 01 2024 10:00:00 AM", "internet security On"⟩])
      = .error "unsupported notification name: internet security On" := by
  constructor
  · decide
  · rfl

/-- C8 amended: the monitor returns Unknown without failing when the event
    store is absent, and when the store holds no event whose name matches the
    fixed "Internet Security " prefix under the query's ASCII case-insensitive
    LIKE comparison. -/
theorem c8_security_status_unknown (rows : List ZAppNotification)
    (h : ∀ r ∈ rows,
      sqlLikePrefix "Internet Security " r.NotificationName = false) :
    is_internet_security_on none = .ok .unknown
    ∧ is_internet_security_on (some rows) = .ok .unknown := by
  constructor
  · rfl
  · have hfil : rows.filter
        (fun r => sqlLikePrefix "Internet Security " r.NotificationName)
          = [] := by
      rw [List.filter_eq_nil_iff]
      intro r hr
      simp [h r hr]
    simp [is_internet_security_on, hfil]

/-- C8 witness: the theorem applied to a store holding one unrelated event. -/
theorem c8_security_status_unknown_witness :
    is_internet_security_on none = .ok .unknown
    ∧ is_internet_security_on (some [⟨"t", "Other Event"⟩]) = .ok .unknown :=
  c8_security_status_unknown [⟨"t", "Other Event"⟩] (by decide)

end ZscalerManager
